import Mathlib

/-!
A verification development for `paper.py` of the `engineering-paper`
repository.

The program is one layout computation (`create_engineering_sheet`) followed
by a sequence of draw calls against a page surface (a reportlab canvas).
The numeric computation is embedded over `ℚ` (Python floats are modelled as
exact rationals), Python integers over `ℤ`, and the canvas as a trace of
drawing operations (`Op`).  Python's `ZeroDivisionError` is made explicit:
every division and floor-division whose divisor can be zero is guarded, and
the render returns the trace of operations issued before the error together
with the error itself.
-/

namespace Paper

/-- Errors.  `zeroDivisionError` models Python's built-in `ZeroDivisionError`,
the only error the layout arithmetic of `paper.py` can raise.
`invalidLayoutError` is modelled from the spec: the spec's error taxonomy
names an `InvalidLayoutError` for degenerate geometry, but no such class,
raise statement or validation exists anywhere in `src/paper.py`; the
constructor is declared only so that statements about that error can be
written down. -/
inductive PyError where
  | zeroDivisionError
  | invalidLayoutError
deriving DecidableEq

/-- Colors are opaque tags: `paper.py` only passes them through to the
canvas and never inspects them. -/
abbrev Color := ℕ

/-- Python's `int(x)` applied to a float: truncation toward zero. -/
def pyInt (x : ℚ) : ℤ := if 0 ≤ x then ⌊x⌋ else ⌈x⌉

/-- `mult_floor` (paper.py lines 21-22): `int((n // multiple) * multiple)`.
Python's `//` on numbers computes `⌊n / multiple⌋` and raises
`ZeroDivisionError` when `multiple` is zero. -/
def mult_floor (n multiple : ℚ) : Except PyError ℤ :=
  if multiple = 0 then .error .zeroDivisionError
  else .ok (pyInt ((⌊n / multiple⌋ : ℚ) * multiple))

/-- One drawing operation issued to the reportlab canvas. -/
inductive Op where
  | setFillColor (c : Color)
  | rect (x y w h : ℚ) (fill : Bool)
  | setStrokeColor (c : Color)
  | setLineWidth (w : ℚ)
  | line (x1 y1 x2 y2 : ℚ)
  | showPage
  | save (filename : String)
deriving DecidableEq

/-- The parameters of `create_engineering_sheet` (paper.py lines 24-30).
The Python `margin` tuple is unpacked as
`margin_top, margin_left, margin_bottom, margin_right = margin` (line 33)
and `page_size` as `width, height` (line 36); this structure stores the
unpacked fields directly. -/
structure Args where
  filename : String
  margin_top : ℚ
  margin_left : ℚ
  margin_bottom : ℚ
  margin_right : ℚ
  grid_size : ℚ
  width : ℚ
  height : ℚ
  major_line_color : Color
  major_line_thickness : ℚ
  major_line_interval : ℤ
  minor_line_color : Color
  minor_line_thickness : ℚ
  border_line_color : Color
  border_line_thickness : ℚ
  background_color : Color
  stretch_grid : Bool
  horizontal_center : Bool
  vertical_center : Bool
deriving DecidableEq

/-- The derived layout values of one render invocation
(paper.py lines 43-68): the local variables of `create_engineering_sheet`
after the centering adjustments, as used by the draw passes. -/
structure Layout where
  grid_size : ℚ
  num_vertical_spaces : ℤ
  num_horizontal_spaces : ℤ
  num_vertical_lines : ℤ
  num_horizontal_lines : ℤ
  top_stop : ℚ
  right_stop : ℚ
  margin_left : ℚ
  margin_bottom : ℚ
deriving DecidableEq

/-- paper.py lines 55-58: the stops and line counts derived from the space
counts and the (possibly stretched) grid size. -/
def mkLayout (a : Args) (nvs nhs : ℤ) (grid_size : ℚ) : Layout :=
  { grid_size := grid_size
    num_vertical_spaces := nvs
    num_horizontal_spaces := nhs
    num_vertical_lines := nvs + 1
    num_horizontal_lines := nhs + 1
    top_stop := a.margin_bottom + (nhs : ℚ) * grid_size
    right_stop := a.margin_left + (nvs : ℚ) * grid_size
    margin_left := a.margin_left
    margin_bottom := a.margin_bottom }

/-- paper.py lines 43-58: space counts (line 43-47), the `stretch_grid`
rescale (lines 49-52, raising `ZeroDivisionError` on a zero space count),
stops and line counts (lines 55-58).  Python evaluates
`grid_size_vertical` before `grid_size_horizontal`, so the vertical zero
count is checked first. -/
def computeLayoutPre (a : Args) : Except PyError Layout :=
  if a.grid_size = 0 then .error .zeroDivisionError else
  (mult_floor (⌊(a.width - a.margin_left - a.margin_right) / a.grid_size⌋ : ℚ)
      (a.major_line_interval : ℚ)).bind fun num_vertical_spaces =>
  (mult_floor (⌊(a.height - a.margin_bottom - a.margin_top) / a.grid_size⌋ : ℚ)
      (a.major_line_interval : ℚ)).bind fun num_horizontal_spaces =>
  if a.stretch_grid then
    if num_vertical_spaces = 0 then .error .zeroDivisionError
    else if num_horizontal_spaces = 0 then .error .zeroDivisionError
    else
      Except.ok (mkLayout a num_vertical_spaces num_horizontal_spaces
        (min ((a.width - a.margin_left - a.margin_right) / (num_vertical_spaces : ℚ))
             ((a.height - a.margin_bottom - a.margin_top) / (num_horizontal_spaces : ℚ))))
  else Except.ok (mkLayout a num_vertical_spaces num_horizontal_spaces a.grid_size)

/-- paper.py lines 60-68: the centering adjustments.  The horizontal branch
adds `horizontal_delta` to both `right_stop` and `margin_left`; the vertical
branch then adds `vertical_delta` to both `top_stop` and `margin_bottom`.
`margin_right` and `margin_top` are never modified. -/
def applyCentering (a : Args) (L : Layout) : Layout :=
  let L1 :=
    if a.horizontal_center then
      let horizontal_delta := (a.width - a.margin_right - L.right_stop) / 2
      { L with right_stop := L.right_stop + horizontal_delta
               margin_left := L.margin_left + horizontal_delta }
    else L
  if a.vertical_center then
    let vertical_delta := (a.height - a.margin_top - L1.top_stop) / 2
    { L1 with top_stop := L1.top_stop + vertical_delta
              margin_bottom := L1.margin_bottom + vertical_delta }
  else L1

/-- The complete layout computation, paper.py lines 43-68. -/
def computeLayout (a : Args) : Except PyError Layout :=
  (computeLayoutPre a).map (applyCentering a)

/-- paper.py lines 71-94: the inner `while count < num_lines` loop of the
grid draw pass for one axis.  `axisX = true` is the `'x'` iteration
(vertical lines from `margin_bottom` up to `line_end = top_stop`),
`axisX = false` the `'y'` iteration (horizontal lines from `margin_left`
to `line_end = right_stop`).  `count % major_line_interval` is Python's
`%`, i.e. `Int.fmod`.  The loop runs `num_lines` times; the fuel argument
counts the remaining iterations. -/
def drawLines (axisX : Bool) (line_end margin_left margin_bottom grid_size : ℚ)
    (major_line_color : Color) (major_line_thickness : ℚ) (major_line_interval : ℤ)
    (minor_line_color : Color) (minor_line_thickness : ℚ) :
    ℚ → ℕ → ℕ → List Op
  | _, _, 0 => []
  | line_pos, count, fuel + 1 =>
    (if Int.fmod (count : ℤ) major_line_interval = 0 then
      [Op.setStrokeColor major_line_color, Op.setLineWidth major_line_thickness]
    else
      [Op.setStrokeColor minor_line_color, Op.setLineWidth minor_line_thickness]) ++
    (if axisX then [Op.line line_pos margin_bottom line_pos line_end]
     else [Op.line margin_left line_pos line_end line_pos]) ++
    drawLines axisX line_end margin_left margin_bottom grid_size major_line_color
      major_line_thickness major_line_interval minor_line_color minor_line_thickness
      (line_pos + grid_size) (count + 1) fuel

/-- paper.py lines 38-40: fill the whole page with the background color. -/
def backgroundOps (a : Args) : List Op :=
  [Op.setFillColor a.background_color, Op.rect 0 0 a.width a.height true]

/-- The `('x', top_stop, num_vertical_lines)` iteration of the grid loop
(paper.py line 71): vertical lines starting at `margin_left`. -/
def gridVerticalOps (a : Args) (L : Layout) : List Op :=
  drawLines true L.top_stop L.margin_left L.margin_bottom L.grid_size
    a.major_line_color a.major_line_thickness a.major_line_interval
    a.minor_line_color a.minor_line_thickness
    L.margin_left 0 L.num_vertical_lines.toNat

/-- The `('y', right_stop, num_horizontal_lines)` iteration of the grid loop
(paper.py line 71): horizontal lines starting at `margin_bottom`. -/
def gridHorizontalOps (a : Args) (L : Layout) : List Op :=
  drawLines false L.right_stop L.margin_left L.margin_bottom L.grid_size
    a.major_line_color a.major_line_thickness a.major_line_interval
    a.minor_line_color a.minor_line_thickness
    L.margin_bottom 0 L.num_horizontal_lines.toNat

/-- paper.py lines 71-94: both iterations of the grid draw pass, in source
order (`'x'` first, then `'y'`). -/
def gridOps (a : Args) (L : Layout) : List Op :=
  gridVerticalOps a L ++ gridHorizontalOps a L

/-- paper.py lines 96-102: the border pass. -/
def borderOps (a : Args) (L : Layout) : List Op :=
  [Op.setStrokeColor a.border_line_color, Op.setLineWidth a.border_line_thickness,
   Op.line L.margin_left 0 L.margin_left a.height,
   Op.line 0 L.top_stop a.width L.top_stop,
   Op.line L.right_stop 0 L.right_stop a.height,
   Op.line L.margin_left L.margin_bottom L.right_stop L.margin_bottom]

/-- paper.py lines 104-107: the thirds dividers above the grid. -/
def thirdsOps (a : Args) (L : Layout) : List Op :=
  let thirds_spacing := (L.right_stop - L.margin_left) / 3
  [Op.line (L.margin_left + thirds_spacing) L.top_stop
     (L.margin_left + thirds_spacing) a.height,
   Op.line (L.margin_left + 2 * thirds_spacing) L.top_stop
     (L.margin_left + 2 * thirds_spacing) a.height]

/-- `create_engineering_sheet` (paper.py lines 24-111) as a trace
semantics: the list of canvas operations issued, paired with the Python
error that interrupted the run, if any.  The background fill (lines 38-40)
happens before the layout arithmetic, so it is in the trace even when the
arithmetic raises; `showPage`/`save` (lines 110-111) run only after every
draw pass finished. -/
def create_engineering_sheet (a : Args) : List Op × Option PyError :=
  match computeLayout a with
  | .error e => (backgroundOps a, some e)
  | .ok L =>
    (backgroundOps a ++ gridOps a L ++ borderOps a L ++ thirdsOps a L ++
      [Op.showPage, Op.save a.filename], none)

/-! ### Concrete inputs used by witnesses and counterexamples -/

/-- A small page with no stretching or centering: width = height = 12,
all margins 1, grid_size 10, major_line_interval 5.  The usable space is
10×10, one raw space per axis, floored to 0 spaces (1 line) per axis. -/
def argsTiny : Args :=
  { filename := "out", margin_top := 1, margin_left := 1, margin_bottom := 1,
    margin_right := 1, grid_size := 10, width := 12, height := 12,
    major_line_color := 0, major_line_thickness := 1/2, major_line_interval := 5,
    minor_line_color := 1, minor_line_thickness := 1/5,
    border_line_color := 2, border_line_thickness := 3/2, background_color := 3,
    stretch_grid := false, horizontal_center := false, vertical_center := false }

/-- The layout `computeLayout` produces for `argsTiny`. -/
def layoutTiny : Layout :=
  { grid_size := 10, num_vertical_spaces := 0, num_horizontal_spaces := 0,
    num_vertical_lines := 1, num_horizontal_lines := 1,
    top_stop := 1, right_stop := 1, margin_left := 1, margin_bottom := 1 }

/-- The defaults of `paper.py` on a US-letter page: width 612, height 792,
margins (30, 30, 30, 30), grid_size 10, major_line_interval 5, stretching
and centering enabled. -/
def argsLetter : Args :=
  { filename := "out", margin_top := 30, margin_left := 30, margin_bottom := 30,
    margin_right := 30, grid_size := 10, width := 612, height := 792,
    major_line_color := 0, major_line_thickness := 1/2, major_line_interval := 5,
    minor_line_color := 1, minor_line_thickness := 1/5,
    border_line_color := 2, border_line_thickness := 3/2, background_color := 3,
    stretch_grid := true, horizontal_center := true, vertical_center := true }

/-- The pre-centering layout of `argsLetter`: 55 vertical and 70 horizontal
spaces, stretched grid size 552/55. -/
def layoutLetterPre : Layout :=
  { grid_size := 552/55, num_vertical_spaces := 55, num_horizontal_spaces := 70,
    num_vertical_lines := 56, num_horizontal_lines := 71,
    top_stop := 8058/11, right_stop := 582, margin_left := 30, margin_bottom := 30 }

/-- `argsLetter` with grid_size 600, larger than the usable space: both
space counts floor to 0. -/
def argsZero : Args :=
  { argsLetter with
    grid_size := 600 }

/-- `argsTiny` with margins that exceed the page width: usable width is
negative. -/
def argsNeg : Args :=
  { argsTiny with
    width := 10
    height := 100
    margin_top := 0
    margin_bottom := 0
    margin_left := 6
    margin_right := 6 }

/-- `argsTiny` with `major_line_interval = 1`: every grid line is major. -/
def argsOne : Args :=
  { argsTiny with
    major_line_interval := 1 }

/-- The layout `computeLayout` produces for `argsOne`. -/
def layoutOne : Layout :=
  { grid_size := 10, num_vertical_spaces := 1, num_horizontal_spaces := 1,
    num_vertical_lines := 2, num_horizontal_lines := 2,
    top_stop := 11, right_stop := 11, margin_left := 1, margin_bottom := 1 }

/-! ### Basic lemmas about the arithmetic primitives -/

/-- `int(x)` of an integer-valued float is that integer. -/
lemma pyInt_intCast (k : ℤ) : pyInt (k : ℚ) = k := by
  unfold pyInt
  split
  · exact Int.floor_intCast k
  · exact Int.ceil_intCast k

/-- `mult_floor` with a nonzero integer multiple succeeds and computes
`⌊n / i⌋ * i`. -/
lemma mult_floor_int (n : ℚ) (i : ℤ) (hi : i ≠ 0) :
    mult_floor n (i : ℚ) = .ok (⌊n / (i : ℚ)⌋ * i) := by
  have hq : (i : ℚ) ≠ 0 := Int.cast_ne_zero.mpr hi
  unfold mult_floor
  rw [if_neg hq]
  have hcast : ((⌊n / (i : ℚ)⌋ : ℚ)) * (i : ℚ) = ((⌊n / (i : ℚ)⌋ * i : ℤ) : ℚ) := by
    push_cast; ring
  rw [hcast, pyInt_intCast]

/-- The only error `mult_floor` can raise is a `ZeroDivisionError`. -/
lemma mult_floor_error (n m : ℚ) (e : PyError) (h : mult_floor n m = .error e) :
    e = .zeroDivisionError := by
  unfold mult_floor at h
  split at h
  · injection h with h; exact h.symm
  · cases h

lemma except_ok_bind {α β : Type} (x : α) (f : α → Except PyError β) :
    (Except.ok x : Except PyError α).bind f = f x := rfl

lemma except_error_bind {α β : Type} (e : PyError) (f : α → Except PyError β) :
    (Except.error e : Except PyError α).bind f = .error e := rfl

/-- The only error the layout computation can raise is a
`ZeroDivisionError` (grid_size 0, major_line_interval 0, or a stretch
division by a zero space count). -/
lemma computeLayoutPre_error (a : Args) (e : PyError)
    (h : computeLayoutPre a = .error e) : e = .zeroDivisionError := by
  unfold computeLayoutPre at h
  by_cases hg : a.grid_size = 0
  · rw [if_pos hg] at h; injection h with h; exact h.symm
  rw [if_neg hg] at h
  cases h1 : mult_floor (⌊(a.width - a.margin_left - a.margin_right) / a.grid_size⌋ : ℚ)
      (a.major_line_interval : ℚ) with
  | error e1 =>
    rw [h1, except_error_bind] at h
    injection h with h; subst h
    exact mult_floor_error _ _ _ h1
  | ok nvs =>
    rw [h1, except_ok_bind] at h
    cases h2 : mult_floor (⌊(a.height - a.margin_bottom - a.margin_top) / a.grid_size⌋ : ℚ)
        (a.major_line_interval : ℚ) with
    | error e2 =>
      rw [h2, except_error_bind] at h
      injection h with h; subst h
      exact mult_floor_error _ _ _ h2
    | ok nhs =>
      rw [h2, except_ok_bind] at h
      split at h
      · split at h
        · injection h with h; exact h.symm
        · split at h
          · injection h with h; exact h.symm
          · cases h
      · cases h

lemma computeLayout_error (a : Args) (e : PyError)
    (h : computeLayout a = .error e) : e = .zeroDivisionError := by
  unfold computeLayout at h
  cases hp : computeLayoutPre a with
  | ok P =>
    rw [hp] at h
    have hm : (Except.ok P : Except PyError Layout).map (applyCentering a)
        = Except.ok (applyCentering a P) := rfl
    rw [hm] at h; cases h
  | error e' =>
    rw [hp] at h
    have hm : (Except.error e' : Except PyError Layout).map (applyCentering a)
        = Except.error e' := rfl
    rw [hm] at h
    injection h with h; subst h
    exact computeLayoutPre_error a e' hp

lemma computeLayout_eq_ok (a : Args) (P : Layout)
    (h : computeLayoutPre a = .ok P) :
    computeLayout a = .ok (applyCentering a P) := by
  unfold computeLayout
  rw [h]
  rfl

lemma computeLayout_ok (a : Args) (L : Layout) (h : computeLayout a = .ok L) :
    ∃ P : Layout, computeLayoutPre a = .ok P ∧ L = applyCentering a P := by
  unfold computeLayout at h
  cases hp : computeLayoutPre a with
  | error e =>
    rw [hp] at h
    have hm : (Except.error e : Except PyError Layout).map (applyCentering a)
        = Except.error e := rfl
    rw [hm] at h; cases h
  | ok P =>
    rw [hp] at h
    have hm : (Except.ok P : Except PyError Layout).map (applyCentering a)
        = Except.ok (applyCentering a P) := rfl
    rw [hm] at h
    injection h with h
    exact ⟨P, rfl, h.symm⟩

lemma create_snd_of_ok (a : Args) (L : Layout) (h : computeLayout a = .ok L) :
    (create_engineering_sheet a).2 = none := by
  unfold create_engineering_sheet
  rw [h]

lemma create_snd_of_error (a : Args) (e : PyError)
    (h : computeLayout a = .error e) :
    (create_engineering_sheet a).2 = some e := by
  unfold create_engineering_sheet
  rw [h]

lemma create_trace_of_ok (a : Args) (L : Layout) (h : computeLayout a = .ok L) :
    (create_engineering_sheet a).1 =
      backgroundOps a ++ gridOps a L ++ borderOps a L ++ thirdsOps a L ++
        [Op.showPage, Op.save a.filename] := by
  unfold create_engineering_sheet
  rw [h]

lemma create_trace_of_error (a : Args) (e : PyError)
    (h : computeLayout a = .error e) :
    (create_engineering_sheet a).1 = backgroundOps a := by
  unfold create_engineering_sheet
  rw [h]

/-! ### Concrete layout computations -/

lemma computeLayoutPre_tiny : computeLayoutPre argsTiny = .ok layoutTiny := by
  unfold computeLayoutPre
  rw [if_neg (by norm_num [argsTiny]),
    mult_floor_int _ argsTiny.major_line_interval (by norm_num [argsTiny]),
    mult_floor_int _ argsTiny.major_line_interval (by norm_num [argsTiny]),
    except_ok_bind, except_ok_bind]
  norm_num [argsTiny, mkLayout, layoutTiny]

lemma computeLayout_tiny : computeLayout argsTiny = .ok layoutTiny := by
  rw [computeLayout_eq_ok argsTiny layoutTiny computeLayoutPre_tiny]
  norm_num [applyCentering, argsTiny]

/-! ### Claim C1 -/

/-- C1, counterexample: at `argsNeg` the usable width
(width − margin_left − margin_right) is negative, yet
`create_engineering_sheet` completes without any error at all — there is
no `InvalidLayoutError` failure. -/
theorem c1_counterexample :
    argsNeg.width - argsNeg.margin_left - argsNeg.margin_right < 0 ∧
    (create_engineering_sheet argsNeg).2 = none := by
  have hpre : computeLayoutPre argsNeg
      = .ok (mkLayout argsNeg (-5) 10 argsNeg.grid_size) := by
    unfold computeLayoutPre
    rw [if_neg (by norm_num [argsNeg, argsTiny]),
      mult_floor_int _ argsNeg.major_line_interval (by norm_num [argsNeg, argsTiny]),
      mult_floor_int _ argsNeg.major_line_interval (by norm_num [argsNeg, argsTiny]),
      except_ok_bind, except_ok_bind]
    norm_num [argsNeg, argsTiny]
  refine ⟨by norm_num [argsNeg, argsTiny], ?_⟩
  exact create_snd_of_ok argsNeg _ (computeLayout_eq_ok argsNeg _ hpre)

/-- C1 (amended): `paper.py` performs no usable-space validation and never
raises the spec's `InvalidLayoutError`: every run of
`create_engineering_sheet` either succeeds or fails with Python's
`ZeroDivisionError`. -/
theorem c1_render_never_raises_invalid_layout_error (a : Args) :
    (create_engineering_sheet a).2 = none ∨
    (create_engineering_sheet a).2 = some PyError.zeroDivisionError := by
  unfold create_engineering_sheet
  cases h : computeLayout a with
  | ok L => left; rfl
  | error e =>
    right
    have he : e = PyError.zeroDivisionError := computeLayout_error a e h
    rw [he]

/-! ### Claim C2 -/

lemma mult_floor_zero_vertical :
    mult_floor (⌊(argsZero.width - argsZero.margin_left - argsZero.margin_right) /
        argsZero.grid_size⌋ : ℚ) (argsZero.major_line_interval : ℚ) = .ok 0 := by
  rw [mult_floor_int _ argsZero.major_line_interval (by norm_num [argsZero, argsLetter])]
  norm_num [argsZero, argsLetter]

lemma mult_floor_zero_horizontal :
    mult_floor (⌊(argsZero.height - argsZero.margin_bottom - argsZero.margin_top) /
        argsZero.grid_size⌋ : ℚ) (argsZero.major_line_interval : ℚ) = .ok 0 := by
  rw [mult_floor_int _ argsZero.major_line_interval (by norm_num [argsZero, argsLetter])]
  norm_num [argsZero, argsLetter]

lemma computeLayoutPre_zero :
    computeLayoutPre argsZero = .error .zeroDivisionError := by
  unfold computeLayoutPre
  rw [if_neg (by norm_num [argsZero, argsLetter]), mult_floor_zero_vertical,
    except_ok_bind, mult_floor_zero_horizontal, except_ok_bind,
    if_pos (show argsZero.stretch_grid = true from rfl), if_pos rfl]

lemma create_zero_snd :
    (create_engineering_sheet argsZero).2 = some PyError.zeroDivisionError := by
  refine create_snd_of_error argsZero _ ?_
  unfold computeLayout
  rw [computeLayoutPre_zero]
  rfl

/-- C2, counterexample: at `argsZero` (stretch enabled, grid_size larger
than the usable space) the floored vertical space count is 0 and the
render fails with `ZeroDivisionError` — the division by zero is performed
— not with `InvalidLayoutError`. -/
theorem c2_counterexample :
    argsZero.stretch_grid = true ∧
    mult_floor (⌊(argsZero.width - argsZero.margin_left - argsZero.margin_right) /
        argsZero.grid_size⌋ : ℚ) (argsZero.major_line_interval : ℚ) = .ok 0 ∧
    (create_engineering_sheet argsZero).2 = some PyError.zeroDivisionError ∧
    (create_engineering_sheet argsZero).2 ≠ some PyError.invalidLayoutError := by
  refine ⟨rfl, mult_floor_zero_vertical, create_zero_snd, ?_⟩
  rw [create_zero_snd]
  simp

/-- C2 (amended): when `stretch_grid` is enabled and a floored space count
is 0, the render fails by performing the division by zero, i.e. with
Python's `ZeroDivisionError` (not with the spec's `InvalidLayoutError`,
which the code never raises). -/
theorem c2_stretch_zero_spaces_zero_division (a : Args) (nvs nhs : ℤ)
    (hs : a.stretch_grid = true)
    (hg : a.grid_size ≠ 0)
    (hv : mult_floor (⌊(a.width - a.margin_left - a.margin_right) / a.grid_size⌋ : ℚ)
        (a.major_line_interval : ℚ) = .ok nvs)
    (hh : mult_floor (⌊(a.height - a.margin_bottom - a.margin_top) / a.grid_size⌋ : ℚ)
        (a.major_line_interval : ℚ) = .ok nhs)
    (hz : nvs = 0 ∨ nhs = 0) :
    (create_engineering_sheet a).2 = some PyError.zeroDivisionError := by
  have hpre : computeLayoutPre a = .error .zeroDivisionError := by
    unfold computeLayoutPre
    rw [if_neg hg, hv, except_ok_bind, hh, except_ok_bind, if_pos hs]
    rcases hz with hz | hz
    · rw [if_pos hz]
    · by_cases hv0 : nvs = 0
      · rw [if_pos hv0]
      · rw [if_neg hv0, if_pos hz]
  have hcl : computeLayout a = .error .zeroDivisionError := by
    unfold computeLayout
    rw [hpre]
    rfl
  unfold create_engineering_sheet
  rw [hcl]

/-- C2, witness: the amended statement holds at `argsZero`. -/
theorem c2_witness :
    argsZero.stretch_grid = true ∧
    (create_engineering_sheet argsZero).2 = some PyError.zeroDivisionError :=
  ⟨rfl,
   c2_stretch_zero_spaces_zero_division argsZero 0 0 rfl
     (by norm_num [argsZero, argsLetter]) mult_floor_zero_vertical
     mult_floor_zero_horizontal (Or.inl rfl)⟩

/-! ### Claim C4 -/

/-- C4: for `n ≥ 0` and an integer `interval > 0`, `mult_floor n interval`
returns the largest multiple of `interval` that is `≤ n`. -/
theorem c4_mult_floor_largest_multiple (n : ℚ) (i : ℤ) (hn : 0 ≤ n) (hi : 0 < i) :
    ∃ m : ℤ, mult_floor n (i : ℚ) = .ok m ∧ i ∣ m ∧ (m : ℚ) ≤ n ∧
      ∀ k : ℤ, i ∣ k → (k : ℚ) ≤ n → k ≤ m := by
  have hiz : i ≠ 0 := ne_of_gt hi
  have hiq : (0 : ℚ) < (i : ℚ) := by exact_mod_cast hi
  refine ⟨⌊n / (i : ℚ)⌋ * i, mult_floor_int n i hiz, dvd_mul_left i _, ?_, ?_⟩
  · have h1 : ((⌊n / (i : ℚ)⌋ : ℚ)) ≤ n / (i : ℚ) := Int.floor_le _
    calc ((⌊n / (i : ℚ)⌋ * i : ℤ) : ℚ) = (⌊n / (i : ℚ)⌋ : ℚ) * (i : ℚ) := by push_cast; ring
    _ ≤ (n / (i : ℚ)) * (i : ℚ) := mul_le_mul_of_nonneg_right h1 (le_of_lt hiq)
    _ = n := div_mul_cancel₀ n (ne_of_gt hiq)
  · rintro k ⟨c, rfl⟩ hk
    have hcn : (c : ℚ) ≤ n / (i : ℚ) := by
      rw [le_div_iff₀ hiq]
      calc (c : ℚ) * (i : ℚ) = ((i * c : ℤ) : ℚ) := by push_cast; ring
      _ ≤ n := hk
    have hcf : c ≤ ⌊n / (i : ℚ)⌋ := Int.le_floor.mpr hcn
    calc i * c ≤ i * ⌊n / (i : ℚ)⌋ := mul_le_mul_of_nonneg_left hcf (le_of_lt hi)
    _ = ⌊n / (i : ℚ)⌋ * i := mul_comm _ _

/-- C4, witness: at `n = 7`, `interval = 2` the returned value is 6, the
largest multiple of 2 below 7. -/
theorem c4_witness :
    (0 : ℚ) ≤ 7 ∧ (0 : ℤ) < 2 ∧
    ∃ m : ℤ, mult_floor 7 ((2 : ℤ) : ℚ) = .ok m ∧ 2 ∣ m ∧ (m : ℚ) ≤ 7 ∧
      ∀ k : ℤ, 2 ∣ k → (k : ℚ) ≤ 7 → k ≤ m :=
  ⟨by norm_num, by norm_num,
   c4_mult_floor_largest_multiple 7 2 (by norm_num) (by norm_num)⟩

/-! ### Inversion of the layout computation -/

/-- Everything a successful `computeLayoutPre` run determines: the space
counts are the double-floored values of lines 43-47, the line counts are
the space counts plus one, the stops are `margin + count × grid_size`, and
the grid size is the stretched minimum (when `stretch_grid` is set, with
both space counts nonzero) or the nominal one. -/
lemma computeLayoutPre_ok (a : Args) (L : Layout) (h : computeLayoutPre a = .ok L) :
    a.grid_size ≠ 0 ∧ a.major_line_interval ≠ 0 ∧
    L.num_vertical_spaces =
      ⌊((⌊(a.width - a.margin_left - a.margin_right) / a.grid_size⌋ : ℚ)) /
        (a.major_line_interval : ℚ)⌋ * a.major_line_interval ∧
    L.num_horizontal_spaces =
      ⌊((⌊(a.height - a.margin_bottom - a.margin_top) / a.grid_size⌋ : ℚ)) /
        (a.major_line_interval : ℚ)⌋ * a.major_line_interval ∧
    L.num_vertical_lines = L.num_vertical_spaces + 1 ∧
    L.num_horizontal_lines = L.num_horizontal_spaces + 1 ∧
    L.margin_left = a.margin_left ∧
    L.margin_bottom = a.margin_bottom ∧
    L.top_stop = a.margin_bottom + (L.num_horizontal_spaces : ℚ) * L.grid_size ∧
    L.right_stop = a.margin_left + (L.num_vertical_spaces : ℚ) * L.grid_size ∧
    (a.stretch_grid = true →
      L.num_vertical_spaces ≠ 0 ∧ L.num_horizontal_spaces ≠ 0 ∧
      L.grid_size = min
        ((a.width - a.margin_left - a.margin_right) / (L.num_vertical_spaces : ℚ))
        ((a.height - a.margin_bottom - a.margin_top) / (L.num_horizontal_spaces : ℚ))) ∧
    (a.stretch_grid = false → L.grid_size = a.grid_size) := by
  unfold computeLayoutPre at h
  by_cases hg : a.grid_size = 0
  · rw [if_pos hg] at h; cases h
  rw [if_neg hg] at h
  by_cases hi : a.major_line_interval = 0
  · have hiq : (a.major_line_interval : ℚ) = 0 := by exact_mod_cast hi
    rw [hiq] at h
    simp [mult_floor, except_error_bind] at h
  rw [mult_floor_int _ a.major_line_interval hi,
    mult_floor_int _ a.major_line_interval hi, except_ok_bind, except_ok_bind] at h
  cases hst : a.stretch_grid with
  | false =>
    rw [hst, if_neg (by simp)] at h
    injection h with h
    subst h
    refine ⟨hg, hi, rfl, rfl, rfl, rfl, rfl, rfl, rfl, rfl, ?_, fun _ => rfl⟩
    intro hc
    simp at hc
  | true =>
    rw [hst, if_pos rfl] at h
    split at h
    · cases h
    · split at h
      · cases h
      · injection h with h
        subst h
        refine ⟨hg, hi, rfl, rfl, rfl, rfl, rfl, rfl, rfl, rfl,
          fun _ => ⟨by assumption, by assumption, rfl⟩, ?_⟩
        intro hc
        simp at hc

/-- Centering does not change the grid size, the space counts or the
line counts. -/
lemma applyCentering_counts (a : Args) (L : Layout) :
    (applyCentering a L).grid_size = L.grid_size ∧
    (applyCentering a L).num_vertical_spaces = L.num_vertical_spaces ∧
    (applyCentering a L).num_horizontal_spaces = L.num_horizontal_spaces ∧
    (applyCentering a L).num_vertical_lines = L.num_vertical_lines ∧
    (applyCentering a L).num_horizontal_lines = L.num_horizontal_lines := by
  unfold applyCentering
  by_cases h1 : a.horizontal_center = true <;> by_cases h2 : a.vertical_center = true <;>
    simp [h1, h2]

/-- Centering shifts `margin_left` and `right_stop` (resp. `margin_bottom`
and `top_stop`) by the same delta, so the differences are preserved. -/
lemma applyCentering_diffs (a : Args) (L : Layout) :
    (applyCentering a L).right_stop - (applyCentering a L).margin_left
      = L.right_stop - L.margin_left ∧
    (applyCentering a L).top_stop - (applyCentering a L).margin_bottom
      = L.top_stop - L.margin_bottom := by
  unfold applyCentering
  by_cases h1 : a.horizontal_center = true <;> by_cases h2 : a.vertical_center = true <;>
    simp [h1, h2]

/-- The double-floored space count of lines 43-47 is non-negative for a
positive usable dimension, and scaling it back by the nominal grid size
stays within the usable dimension. -/
lemma floored_spaces_bounds (u g : ℚ) (i : ℤ) (hu : 0 < u) (hg : 0 < g) (hi : 0 < i) :
    0 ≤ ⌊((⌊u / g⌋ : ℚ)) / (i : ℚ)⌋ * i ∧
    ((⌊((⌊u / g⌋ : ℚ)) / (i : ℚ)⌋ * i : ℤ) : ℚ) * g ≤ u := by
  have hiq : (0 : ℚ) < (i : ℚ) := by exact_mod_cast hi
  have hx : (0 : ℤ) ≤ ⌊u / g⌋ := Int.floor_nonneg.mpr (le_of_lt (div_pos hu hg))
  have hq : (0 : ℤ) ≤ ⌊((⌊u / g⌋ : ℚ)) / (i : ℚ)⌋ :=
    Int.floor_nonneg.mpr (div_nonneg (by exact_mod_cast hx) (le_of_lt hiq))
  refine ⟨mul_nonneg hq (le_of_lt hi), ?_⟩
  have h1 : ((⌊((⌊u / g⌋ : ℚ)) / (i : ℚ)⌋ * i : ℤ) : ℚ) ≤ (⌊u / g⌋ : ℚ) := by
    push_cast
    calc (⌊((⌊u / g⌋ : ℚ)) / (i : ℚ)⌋ : ℚ) * (i : ℚ)
        ≤ (((⌊u / g⌋ : ℚ)) / (i : ℚ)) * (i : ℚ) :=
          mul_le_mul_of_nonneg_right (Int.floor_le _) (le_of_lt hiq)
    _ = (⌊u / g⌋ : ℚ) := div_mul_cancel₀ _ (ne_of_gt hiq)
  have h2 : ((⌊u / g⌋ : ℚ)) * g ≤ u := by
    calc (⌊u / g⌋ : ℚ) * g ≤ (u / g) * g :=
          mul_le_mul_of_nonneg_right (Int.floor_le _) (le_of_lt hg)
    _ = u := div_mul_cancel₀ _ (ne_of_gt hg)
  calc ((⌊((⌊u / g⌋ : ℚ)) / (i : ℚ)⌋ * i : ℤ) : ℚ) * g
      ≤ (⌊u / g⌋ : ℚ) * g := mul_le_mul_of_nonneg_right h1 (le_of_lt hg)
  _ ≤ u := h2

/-! ### Claim C5 -/

/-- C5: for every valid input (non-negative margins summing below the page
dimensions, positive grid_size, positive integer major_line_interval) the
computed space counts of lines 43-47 are non-negative multiples of
`major_line_interval`, and they are the space counts of any successful
layout. -/
theorem c5_space_counts_multiples (a : Args)
    (hml : 0 ≤ a.margin_left) (hmr : 0 ≤ a.margin_right)
    (hmt : 0 ≤ a.margin_top) (hmb : 0 ≤ a.margin_bottom)
    (hwid : a.margin_left + a.margin_right < a.width)
    (hhei : a.margin_top + a.margin_bottom < a.height)
    (hg : 0 < a.grid_size) (hi : 0 < a.major_line_interval) :
    ∃ nvs nhs : ℤ,
      mult_floor (⌊(a.width - a.margin_left - a.margin_right) / a.grid_size⌋ : ℚ)
        (a.major_line_interval : ℚ) = .ok nvs ∧
      mult_floor (⌊(a.height - a.margin_bottom - a.margin_top) / a.grid_size⌋ : ℚ)
        (a.major_line_interval : ℚ) = .ok nhs ∧
      0 ≤ nvs ∧ a.major_line_interval ∣ nvs ∧
      0 ≤ nhs ∧ a.major_line_interval ∣ nhs ∧
      ∀ L : Layout, computeLayoutPre a = .ok L →
        L.num_vertical_spaces = nvs ∧ L.num_horizontal_spaces = nhs := by
  have hiz : a.major_line_interval ≠ 0 := ne_of_gt hi
  have huw : 0 < a.width - a.margin_left - a.margin_right := by linarith
  have huh : 0 < a.height - a.margin_bottom - a.margin_top := by linarith
  refine ⟨_, _, mult_floor_int _ a.major_line_interval hiz,
    mult_floor_int _ a.major_line_interval hiz,
    (floored_spaces_bounds _ a.grid_size _ huw hg hi).1, dvd_mul_left _ _,
    (floored_spaces_bounds _ a.grid_size _ huh hg hi).1, dvd_mul_left _ _, ?_⟩
  intro L hL
  obtain ⟨-, -, hv, hh, -, -, -, -, -, -, -, -⟩ := computeLayoutPre_ok a L hL
  exact ⟨hv, hh⟩

/-- C5, witness: the statement at the letter-page defaults. -/
theorem c5_witness :
    ∃ nvs nhs : ℤ,
      mult_floor (⌊(argsLetter.width - argsLetter.margin_left - argsLetter.margin_right) /
          argsLetter.grid_size⌋ : ℚ) (argsLetter.major_line_interval : ℚ) = .ok nvs ∧
      mult_floor (⌊(argsLetter.height - argsLetter.margin_bottom - argsLetter.margin_top) /
          argsLetter.grid_size⌋ : ℚ) (argsLetter.major_line_interval : ℚ) = .ok nhs ∧
      0 ≤ nvs ∧ argsLetter.major_line_interval ∣ nvs ∧
      0 ≤ nhs ∧ argsLetter.major_line_interval ∣ nhs ∧
      ∀ L : Layout, computeLayoutPre argsLetter = .ok L →
        L.num_vertical_spaces = nvs ∧ L.num_horizontal_spaces = nhs :=
  c5_space_counts_multiples argsLetter (by norm_num [argsLetter]) (by norm_num [argsLetter])
    (by norm_num [argsLetter]) (by norm_num [argsLetter]) (by norm_num [argsLetter])
    (by norm_num [argsLetter]) (by norm_num [argsLetter]) (by norm_num [argsLetter])

/-! ### The letter-page layout -/

lemma computeLayoutPre_letter : computeLayoutPre argsLetter = .ok layoutLetterPre := by
  unfold computeLayoutPre
  rw [if_neg (by norm_num [argsLetter]),
    mult_floor_int _ argsLetter.major_line_interval (by norm_num [argsLetter]),
    mult_floor_int _ argsLetter.major_line_interval (by norm_num [argsLetter]),
    except_ok_bind, except_ok_bind]
  norm_num [argsLetter, mkLayout, layoutLetterPre, min_def]

/-! ### Claim C7 -/

/-- C7: with `stretch_grid` enabled and positive space counts, the
effective grid size is the minimum of the two per-axis stretched sizes and
divides the grid extents exactly: `right_stop − margin_left` is
`num_vertical_spaces × grid_size` and `top_stop − margin_bottom` is
`num_horizontal_spaces × grid_size`, also after centering. -/
theorem c7_stretch_divides (a : Args) (P : Layout)
    (hpre : computeLayoutPre a = .ok P) (hs : a.stretch_grid = true)
    (hv : 0 < P.num_vertical_spaces) (hh : 0 < P.num_horizontal_spaces) :
    computeLayout a = .ok (applyCentering a P) ∧
    P.grid_size = min
      ((a.width - a.margin_left - a.margin_right) / (P.num_vertical_spaces : ℚ))
      ((a.height - a.margin_bottom - a.margin_top) / (P.num_horizontal_spaces : ℚ)) ∧
    (applyCentering a P).right_stop - (applyCentering a P).margin_left
      = (P.num_vertical_spaces : ℚ) * P.grid_size ∧
    (applyCentering a P).top_stop - (applyCentering a P).margin_bottom
      = (P.num_horizontal_spaces : ℚ) * P.grid_size := by
  obtain ⟨-, -, -, -, -, -, hml, hmb, hts, hrs, hstr, -⟩ := computeLayoutPre_ok a P hpre
  obtain ⟨-, -, hmin⟩ := hstr hs
  refine ⟨computeLayout_eq_ok a P hpre, hmin, ?_, ?_⟩
  · rw [(applyCentering_diffs a P).1, hrs, hml]
    ring
  · rw [(applyCentering_diffs a P).2, hts, hmb]
    ring

/-- C7, witness: the statement at the letter-page defaults (55 and 70
spaces, effective grid size 552/55). -/
theorem c7_witness :
    computeLayout argsLetter = .ok (applyCentering argsLetter layoutLetterPre) ∧
    layoutLetterPre.grid_size = min
      ((argsLetter.width - argsLetter.margin_left - argsLetter.margin_right) /
        (layoutLetterPre.num_vertical_spaces : ℚ))
      ((argsLetter.height - argsLetter.margin_bottom - argsLetter.margin_top) /
        (layoutLetterPre.num_horizontal_spaces : ℚ)) ∧
    (applyCentering argsLetter layoutLetterPre).right_stop -
        (applyCentering argsLetter layoutLetterPre).margin_left
      = (layoutLetterPre.num_vertical_spaces : ℚ) * layoutLetterPre.grid_size ∧
    (applyCentering argsLetter layoutLetterPre).top_stop -
        (applyCentering argsLetter layoutLetterPre).margin_bottom
      = (layoutLetterPre.num_horizontal_spaces : ℚ) * layoutLetterPre.grid_size :=
  c7_stretch_divides argsLetter layoutLetterPre computeLayoutPre_letter rfl
    (by norm_num [layoutLetterPre]) (by norm_num [layoutLetterPre])

/-! ### Claim C8 -/

/-- C8: under symmetric margins, when the grid already spans the full
usable width before centering (`right_stop = width − margin_right`), the
horizontal centering delta is 0, so centering changes neither
`margin_left` nor `right_stop`. -/
theorem c8_centering_no_shift (a : Args) (P : Layout)
    (hpre : computeLayoutPre a = .ok P)
    (hcen : a.horizontal_center = true)
    (hsym : a.margin_left = a.margin_right)
    (hfull : P.right_stop = a.width - a.margin_right) :
    (a.width - a.margin_right - P.right_stop) / 2 = 0 ∧
    (applyCentering a P).margin_left = P.margin_left ∧
    (applyCentering a P).right_stop = P.right_stop := by
  have hd : (a.width - a.margin_right - P.right_stop) / 2 = 0 := by
    rw [hfull]
    ring
  refine ⟨hd, ?_, ?_⟩ <;>
  · unfold applyCentering
    by_cases h2 : a.vertical_center = true <;> simp [hcen, h2, hd]

/-- C8, witness: at the letter-page defaults the stretched grid spans the
full usable width (`right_stop = 582 = 612 − 30`) with symmetric margins,
and centering moves nothing horizontally. -/
theorem c8_witness :
    (argsLetter.width - argsLetter.margin_right - layoutLetterPre.right_stop) / 2 = 0 ∧
    (applyCentering argsLetter layoutLetterPre).margin_left
      = layoutLetterPre.margin_left ∧
    (applyCentering argsLetter layoutLetterPre).right_stop
      = layoutLetterPre.right_stop :=
  c8_centering_no_shift argsLetter layoutLetterPre computeLayoutPre_letter rfl rfl
    (by norm_num [argsLetter, layoutLetterPre])

/-! ### Claim C10 -/

/-- C10: with `stretch_grid` enabled, positive usable dimensions, positive
nominal grid size, positive interval and positive space counts, the
effective grid size is at least the nominal one, the stretched grid still
fits inside the margins, and both centering deltas are non-negative. -/
theorem c10_stretch_bounds (a : Args) (P : Layout)
    (hpre : computeLayoutPre a = .ok P) (hs : a.stretch_grid = true)
    (huw : 0 < a.width - a.margin_left - a.margin_right)
    (huh : 0 < a.height - a.margin_bottom - a.margin_top)
    (hg : 0 < a.grid_size) (hi : 0 < a.major_line_interval)
    (hv : 0 < P.num_vertical_spaces) (hh : 0 < P.num_horizontal_spaces) :
    a.grid_size ≤ P.grid_size ∧
    P.right_stop ≤ a.width - a.margin_right ∧
    P.top_stop ≤ a.height - a.margin_top ∧
    0 ≤ (a.width - a.margin_right - P.right_stop) / 2 ∧
    0 ≤ (a.height - a.margin_top - P.top_stop) / 2 := by
  obtain ⟨-, -, hnv, hnh, -, -, hml, hmb, hts, hrs, hstr, -⟩ := computeLayoutPre_ok a P hpre
  obtain ⟨-, -, hmin⟩ := hstr hs
  have hvq : (0 : ℚ) < (P.num_vertical_spaces : ℚ) := by exact_mod_cast hv
  have hhq : (0 : ℚ) < (P.num_horizontal_spaces : ℚ) := by exact_mod_cast hh
  have hb1 := (floored_spaces_bounds (a.width - a.margin_left - a.margin_right)
    a.grid_size a.major_line_interval huw hg hi).2
  have hb2 := (floored_spaces_bounds (a.height - a.margin_bottom - a.margin_top)
    a.grid_size a.major_line_interval huh hg hi).2
  rw [← hnv] at hb1
  rw [← hnh] at hb2
  have hg1 : a.grid_size ≤ (a.width - a.margin_left - a.margin_right) /
      (P.num_vertical_spaces : ℚ) := by
    rw [le_div_iff₀ hvq]
    calc a.grid_size * (P.num_vertical_spaces : ℚ)
        = (P.num_vertical_spaces : ℚ) * a.grid_size := by ring
    _ ≤ a.width - a.margin_left - a.margin_right := hb1
  have hg2 : a.grid_size ≤ (a.height - a.margin_bottom - a.margin_top) /
      (P.num_horizontal_spaces : ℚ) := by
    rw [le_div_iff₀ hhq]
    calc a.grid_size * (P.num_horizontal_spaces : ℚ)
        = (P.num_horizontal_spaces : ℚ) * a.grid_size := by ring
    _ ≤ a.height - a.margin_bottom - a.margin_top := hb2
  have hgs : a.grid_size ≤ P.grid_size := by
    rw [hmin]
    exact le_min hg1 hg2
  have hx1 : (P.num_vertical_spaces : ℚ) * P.grid_size
      ≤ a.width - a.margin_left - a.margin_right := by
    calc (P.num_vertical_spaces : ℚ) * P.grid_size
        ≤ (P.num_vertical_spaces : ℚ) *
          ((a.width - a.margin_left - a.margin_right) / (P.num_vertical_spaces : ℚ)) := by
          refine mul_le_mul_of_nonneg_left ?_ (le_of_lt hvq)
          rw [hmin]
          exact min_le_left _ _
    _ = a.width - a.margin_left - a.margin_right := by
          rw [mul_comm]
          exact div_mul_cancel₀ _ (ne_of_gt hvq)
  have hx2 : (P.num_horizontal_spaces : ℚ) * P.grid_size
      ≤ a.height - a.margin_bottom - a.margin_top := by
    calc (P.num_horizontal_spaces : ℚ) * P.grid_size
        ≤ (P.num_horizontal_spaces : ℚ) *
          ((a.height - a.margin_bottom - a.margin_top) / (P.num_horizontal_spaces : ℚ)) := by
          refine mul_le_mul_of_nonneg_left ?_ (le_of_lt hhq)
          rw [hmin]
          exact min_le_right _ _
    _ = a.height - a.margin_bottom - a.margin_top := by
          rw [mul_comm]
          exact div_mul_cancel₀ _ (ne_of_gt hhq)
  have hrs_le : P.right_stop ≤ a.width - a.margin_right := by
    rw [hrs]
    linarith
  have hts_le : P.top_stop ≤ a.height - a.margin_top := by
    rw [hts]
    linarith
  refine ⟨hgs, hrs_le, hts_le, ?_, ?_⟩
  · have : 0 ≤ a.width - a.margin_right - P.right_stop := by linarith
    positivity
  · have : 0 ≤ a.height - a.margin_top - P.top_stop := by linarith
    positivity

/-- C10, witness: the bounds at the letter-page defaults
(10 ≤ 552/55, 582 ≤ 582, 8058/11 ≤ 762). -/
theorem c10_witness :
    argsLetter.grid_size ≤ layoutLetterPre.grid_size ∧
    layoutLetterPre.right_stop ≤ argsLetter.width - argsLetter.margin_right ∧
    layoutLetterPre.top_stop ≤ argsLetter.height - argsLetter.margin_top ∧
    0 ≤ (argsLetter.width - argsLetter.margin_right - layoutLetterPre.right_stop) / 2 ∧
    0 ≤ (argsLetter.height - argsLetter.margin_top - layoutLetterPre.top_stop) / 2 :=
  c10_stretch_bounds argsLetter layoutLetterPre computeLayoutPre_letter rfl
    (by norm_num [argsLetter]) (by norm_num [argsLetter]) (by norm_num [argsLetter])
    (by norm_num [argsLetter]) (by norm_num [layoutLetterPre]) (by norm_num [layoutLetterPre])

/-! ### Claim C3 -/

/-- C3, counterexample: at `argsTiny` the render succeeds, the border pass
issues exactly its six operations, and the fourth border segment — the
bottom one at `margin_bottom` — runs from `margin_left = 1` to
`right_stop = 1`, not across the full page width from 0 to 12. -/
theorem c3_counterexample :
    computeLayout argsTiny = .ok layoutTiny ∧
    borderOps argsTiny layoutTiny =
      [Op.setStrokeColor 2, Op.setLineWidth (3/2),
       Op.line 1 0 1 12, Op.line 0 1 12 1, Op.line 1 0 1 12,
       Op.line 1 1 1 1] ∧
    (1 : ℚ) ≠ 0 ∧ (1 : ℚ) ≠ argsTiny.width := by
  refine ⟨computeLayout_tiny, ?_, by norm_num, by norm_num [argsTiny]⟩
  norm_num [borderOps, argsTiny, layoutTiny]

/-- C3 (amended): for every successful render the border pass draws four
segments; the left vertical (at `margin_left`), top horizontal (at
`top_stop`) and right vertical (at `right_stop`) segments span the full
page extent (0 to height, resp. 0 to width), but the bottom segment (at
`margin_bottom`) spans only from `margin_left` to `right_stop`. -/
theorem c3_border_segments (a : Args) (L : Layout)
    (h : computeLayout a = .ok L) :
    Op.line L.margin_left 0 L.margin_left a.height ∈ (create_engineering_sheet a).1 ∧
    Op.line 0 L.top_stop a.width L.top_stop ∈ (create_engineering_sheet a).1 ∧
    Op.line L.right_stop 0 L.right_stop a.height ∈ (create_engineering_sheet a).1 ∧
    Op.line L.margin_left L.margin_bottom L.right_stop L.margin_bottom
      ∈ (create_engineering_sheet a).1 := by
  unfold create_engineering_sheet
  rw [h]
  refine ⟨?_, ?_, ?_, ?_⟩ <;> simp [borderOps]

/-- C3, witness: the four border segments of the `argsTiny` render. -/
theorem c3_witness :
    Op.line layoutTiny.margin_left 0 layoutTiny.margin_left argsTiny.height
      ∈ (create_engineering_sheet argsTiny).1 ∧
    Op.line 0 layoutTiny.top_stop argsTiny.width layoutTiny.top_stop
      ∈ (create_engineering_sheet argsTiny).1 ∧
    Op.line layoutTiny.right_stop 0 layoutTiny.right_stop argsTiny.height
      ∈ (create_engineering_sheet argsTiny).1 ∧
    Op.line layoutTiny.margin_left layoutTiny.margin_bottom layoutTiny.right_stop
      layoutTiny.margin_bottom ∈ (create_engineering_sheet argsTiny).1 :=
  c3_border_segments argsTiny layoutTiny computeLayout_tiny

/-! ### Claim C9 -/

lemma drawLines_no_save (axisX : Bool) (le ml mb gs : ℚ) (mc : Color) (mt : ℚ)
    (i : ℤ) (nc : Color) (nt : ℚ) (g : String) :
    ∀ (fuel : ℕ) (p : ℚ) (count : ℕ),
      Op.save g ∉ drawLines axisX le ml mb gs mc mt i nc nt p count fuel := by
  intro fuel
  induction fuel with
  | zero =>
    intro p count
    simp [drawLines]
  | succ n ih =>
    intro p count hmem
    simp only [drawLines] at hmem
    rcases List.mem_append.mp hmem with hm | hm
    · rcases List.mem_append.mp hm with hm1 | hm1
      · revert hm1
        split <;> simp
      · revert hm1
        split <;> simp
    · exact ih _ _ hm

lemma backgroundOps_no_save (a : Args) (g : String) :
    Op.save g ∉ backgroundOps a := by
  simp [backgroundOps]

lemma gridOps_no_save (a : Args) (L : Layout) (g : String) :
    Op.save g ∉ gridOps a L := by
  intro hmem
  rcases List.mem_append.mp hmem with hm | hm
  · exact drawLines_no_save _ _ _ _ _ _ _ _ _ _ g _ _ _ hm
  · exact drawLines_no_save _ _ _ _ _ _ _ _ _ _ g _ _ _ hm

lemma borderOps_no_save (a : Args) (L : Layout) (g : String) :
    Op.save g ∉ borderOps a L := by
  simp [borderOps]

lemma thirdsOps_no_save (a : Args) (L : Layout) (g : String) :
    Op.save g ∉ thirdsOps a L := by
  simp [thirdsOps]

/-- C9: a `save` operation appears in the trace only when the render
succeeded, only for the requested filename, and only as the very last
operation, after `showPage` and the complete draw sequence; no failing run
issues a `save`. -/
theorem c9_save_only_after_success (a : Args) (f : String)
    (h : Op.save f ∈ (create_engineering_sheet a).1) :
    (create_engineering_sheet a).2 = none ∧ f = a.filename ∧
    ∃ pre : List Op,
      (create_engineering_sheet a).1 = pre ++ [Op.showPage, Op.save a.filename] ∧
      ∀ g : String, Op.save g ∉ pre := by
  cases hL : computeLayout a with
  | error e =>
    exfalso
    rw [create_trace_of_error a e hL] at h
    exact backgroundOps_no_save a f h
  | ok L =>
    rw [create_trace_of_ok a L hL] at h
    simp only [List.mem_append] at h
    have hf : f = a.filename := by
      rcases h with ((((hm | hm) | hm) | hm) | hm)
      · exact absurd hm (backgroundOps_no_save a f)
      · exact absurd hm (gridOps_no_save a L f)
      · exact absurd hm (borderOps_no_save a L f)
      · exact absurd hm (thirdsOps_no_save a L f)
      · simpa using hm
    refine ⟨create_snd_of_ok a L hL, hf,
      backgroundOps a ++ gridOps a L ++ borderOps a L ++ thirdsOps a L, ?_, ?_⟩
    · rw [create_trace_of_ok a L hL]
    · intro g hmem
      simp only [List.mem_append] at hmem
      rcases hmem with (((hm | hm) | hm) | hm)
      · exact backgroundOps_no_save a g hm
      · exact gridOps_no_save a L g hm
      · exact borderOps_no_save a L g hm
      · exact thirdsOps_no_save a L g hm

/-- C9, witness: the `argsTiny` render contains `save "out"`, succeeds, and
its trace ends in `showPage; save`. -/
theorem c9_witness :
    (create_engineering_sheet argsTiny).2 = none ∧ "out" = argsTiny.filename ∧
    ∃ pre : List Op,
      (create_engineering_sheet argsTiny).1
        = pre ++ [Op.showPage, Op.save argsTiny.filename] ∧
      ∀ g : String, Op.save g ∉ pre :=
  c9_save_only_after_success argsTiny "out" (by
    unfold create_engineering_sheet
    rw [computeLayout_tiny]
    simp [argsTiny])

/-! ### Claim C6 -/

/-- Closed form of the grid loop: the trace is, for each line index `j`
below the line count, the style selection for `j` followed by the line at
`start + j × grid_size`. -/
lemma drawLines_eq (axisX : Bool) (le ml mb gs : ℚ) (mc : Color) (mt : ℚ) (i : ℤ)
    (nc : Color) (nt : ℚ) :
    ∀ (fuel : ℕ) (p : ℚ) (count : ℕ),
      drawLines axisX le ml mb gs mc mt i nc nt p count fuel =
      (List.range fuel).flatMap (fun j =>
        (if Int.fmod ((count + j : ℕ) : ℤ) i = 0 then
          [Op.setStrokeColor mc, Op.setLineWidth mt]
        else
          [Op.setStrokeColor nc, Op.setLineWidth nt]) ++
        (if axisX = true then
          [Op.line (p + (j : ℚ) * gs) mb (p + (j : ℚ) * gs) le]
        else
          [Op.line ml (p + (j : ℚ) * gs) le (p + (j : ℚ) * gs)])) := by
  intro fuel
  induction fuel with
  | zero =>
    intro p count
    rfl
  | succ n ih =>
    intro p count
    rw [List.range_succ_eq_map, List.flatMap_cons, List.flatMap_map]
    simp only [drawLines]
    rw [ih (p + gs) (count + 1)]
    congr 1
    · simp
    · congr 1
      funext j
      have h1 : (count + 1 + j) = (count + Nat.succ j) := by omega
      have h2 : p + gs + (j : ℚ) * gs = p + ((Nat.succ j : ℕ) : ℚ) * gs := by
        push_cast
        ring
      simp only [Function.comp, h1, h2]

/-- Counting the major-style selections in the grid loop: one per index
whose Python remainder by the interval is 0 (the major and minor stroke
colors must differ for the count to be meaningful). -/
lemma drawLines_count (axisX : Bool) (le ml mb gs : ℚ) (mc : Color) (mt : ℚ) (i : ℤ)
    (nc : Color) (nt : ℚ) (hc : mc ≠ nc) :
    ∀ (fuel : ℕ) (p : ℚ) (count : ℕ),
      (drawLines axisX le ml mb gs mc mt i nc nt p count fuel).count
          (Op.setStrokeColor mc) =
        List.countP (fun j => Int.fmod ((count + j : ℕ) : ℤ) i == 0)
          (List.range fuel) := by
  intro fuel
  induction fuel with
  | zero =>
    intro p count
    rfl
  | succ n ih =>
    intro p count
    rw [List.range_succ_eq_map, List.countP_cons, List.countP_map]
    simp only [drawLines]
    rw [List.count_append, List.count_append, ih (p + gs) (count + 1)]
    have hshift : List.countP
        ((fun j => Int.fmod ((count + j : ℕ) : ℤ) i == 0) ∘ Nat.succ) (List.range n)
        = List.countP (fun j => Int.fmod ((count + 1 + j : ℕ) : ℤ) i == 0)
          (List.range n) := by
      congr 1
      funext j
      have h1 : (count + Nat.succ j) = (count + 1 + j) := by omega
      simp only [Function.comp, h1]
    rw [hshift]
    have hB : (if axisX = true then [Op.line p mb p le]
        else [Op.line ml p le p]).count (Op.setStrokeColor mc) = 0 := by
      split <;> simp [List.count_cons]
    have hA : (if Int.fmod ((count : ℕ) : ℤ) i = 0 then
        [Op.setStrokeColor mc, Op.setLineWidth mt]
      else
        [Op.setStrokeColor nc, Op.setLineWidth nt]).count (Op.setStrokeColor mc)
        = if Int.fmod ((count + 0 : ℕ) : ℤ) i == 0 then 1 else 0 := by
      rw [Nat.add_zero]
      by_cases h0 : Int.fmod ((count : ℕ) : ℤ) i = 0
      · rw [if_pos h0, if_pos (by simpa using h0)]
        simp [List.count_cons]
      · rw [if_neg h0, if_neg (by simpa using h0)]
        simp [List.count_cons, hc, Ne.symm hc]
    rw [hB, hA]
    omega

/-- Multiples of a positive `i` among `0, …, n − 1`, by Python remainder:
there are `(n + i − 1) / i` of them. -/
lemma countP_fmod_range (i : ℤ) (hi : 0 < i) :
    ∀ n : ℕ, List.countP (fun j => Int.fmod ((j : ℕ) : ℤ) i == 0) (List.range n)
      = (n + i.toNat - 1) / i.toNat := by
  have ht : 0 < i.toNat := by omega
  have hcast : ((i.toNat : ℤ)) = i := Int.toNat_of_nonneg (le_of_lt hi)
  intro n
  induction n with
  | zero =>
    simp [List.range_zero]
    exact (Nat.div_eq_of_lt (by omega)).symm
  | succ n ih =>
    rw [List.range_succ, List.countP_append, ih]
    have hiff : (Int.fmod ((n : ℕ) : ℤ) i = 0) ↔ i.toNat ∣ n := by
      rw [Int.fmod_eq_emod _ (le_of_lt hi), ← Int.dvd_iff_emod_eq_zero, ← hcast]
      exact ⟨fun hd => by exact_mod_cast hd, fun hd => by exact_mod_cast hd⟩
    by_cases hd : i.toNat ∣ n
    · have h1 : List.countP (fun j => Int.fmod ((j : ℕ) : ℤ) i == 0) [n] = 1 := by
        simp [List.countP_cons, hiff, hd]
      rw [h1]
      have h2 : n + 1 + i.toNat - 1 = (n + i.toNat - 1) + 1 := by omega
      have h3 : i.toNat ∣ (n + i.toNat - 1) + 1 := by
        have h4 : (n + i.toNat - 1) + 1 = n + i.toNat := by omega
        rw [h4]
        exact dvd_add hd (dvd_refl _)
      rw [h2, Nat.succ_div_of_dvd h3]
    · have h1 : List.countP (fun j => Int.fmod ((j : ℕ) : ℤ) i == 0) [n] = 0 := by
        simp [List.countP_cons, hiff, hd]
      rw [h1]
      have h2 : n + 1 + i.toNat - 1 = (n + i.toNat - 1) + 1 := by omega
      have h3 : ¬ i.toNat ∣ (n + i.toNat - 1) + 1 := by
        have h4 : (n + i.toNat - 1) + 1 = n + i.toNat := by omega
        rw [h4]
        intro hcon
        have h5 := Nat.dvd_sub' hcon (dvd_refl i.toNat)
        rw [Nat.add_sub_cancel] at h5
        exact hd h5
      rw [h2, Nat.succ_div_of_not_dvd h3, Nat.add_zero]

lemma op_line_ne_stroke (a b c d : ℚ) (e : Color) :
    Op.line a b c d ≠ Op.setStrokeColor e := fun hco => Op.noConfusion hco

lemma op_width_ne_stroke (w : ℚ) (e : Color) :
    Op.setLineWidth w ≠ Op.setStrokeColor e := fun hco => Op.noConfusion hco

lemma computeLayoutPre_one : computeLayoutPre argsOne = .ok layoutOne := by
  unfold computeLayoutPre
  rw [if_neg (by norm_num [argsOne, argsTiny]),
    mult_floor_int _ argsOne.major_line_interval (by norm_num [argsOne, argsTiny]),
    mult_floor_int _ argsOne.major_line_interval (by norm_num [argsOne, argsTiny]),
    except_ok_bind, except_ok_bind]
  norm_num [argsOne, argsTiny, mkLayout, layoutOne]

lemma computeLayout_one : computeLayout argsOne = .ok layoutOne := by
  rw [computeLayout_eq_ok argsOne layoutOne computeLayoutPre_one]
  norm_num [applyCentering, argsOne, argsTiny]

/-- C6, counterexample: at `argsOne` (`major_line_interval = 1`) the render
succeeds with 2 vertical lines, both drawn with the major style, so the
major count per axis is 2 — but the claimed formula
`num_lines // major_line_interval + 1` gives 3. -/
theorem c6_counterexample :
    computeLayout argsOne = .ok layoutOne ∧
    argsOne.major_line_interval = 1 ∧
    (gridVerticalOps argsOne layoutOne).count
      (Op.setStrokeColor argsOne.major_line_color) = 2 ∧
    layoutOne.num_vertical_lines.toNat / argsOne.major_line_interval.toNat + 1 = 3 ∧
    (2 : ℕ) ≠ 3 := by
  have h2 : layoutOne.num_vertical_lines.toNat = 2 := by
    simp only [layoutOne]
    omega
  have h1 : argsOne.major_line_interval.toNat = 1 := by
    simp only [argsOne, argsTiny]
    omega
  refine ⟨computeLayout_one, rfl, ?_, by rw [h2, h1], by norm_num⟩
  unfold gridVerticalOps
  rw [h2]
  norm_num [drawLines, layoutOne, argsOne, argsTiny, List.count_cons,
    op_line_ne_stroke, op_width_ne_stroke]

/-- C6 (amended): for every successful render (with valid geometry and
distinguishable major/minor stroke colors) the grid pass of each axis
draws, at every line index `j`, the major style exactly when
`j mod major_line_interval = 0` and the minor style otherwise, at position
`margin + j × grid_size`; the count of major-style lines per axis is
`num_spaces / major_line_interval + 1` (which equals the claimed
`num_lines // major_line_interval + 1` for intervals ≥ 2 but not for
interval 1). -/
theorem c6_grid_line_styles (a : Args) (L : Layout)
    (h : computeLayout a = .ok L)
    (hwid : a.margin_left + a.margin_right < a.width)
    (hhei : a.margin_top + a.margin_bottom < a.height)
    (hg : 0 < a.grid_size) (hi : 0 < a.major_line_interval)
    (hc : a.major_line_color ≠ a.minor_line_color) :
    gridVerticalOps a L = (List.range L.num_vertical_lines.toNat).flatMap (fun j =>
      (if Int.fmod ((j : ℕ) : ℤ) a.major_line_interval = 0 then
        [Op.setStrokeColor a.major_line_color, Op.setLineWidth a.major_line_thickness]
      else
        [Op.setStrokeColor a.minor_line_color, Op.setLineWidth a.minor_line_thickness]) ++
      [Op.line (L.margin_left + (j : ℚ) * L.grid_size) L.margin_bottom
        (L.margin_left + (j : ℚ) * L.grid_size) L.top_stop]) ∧
    gridHorizontalOps a L = (List.range L.num_horizontal_lines.toNat).flatMap (fun j =>
      (if Int.fmod ((j : ℕ) : ℤ) a.major_line_interval = 0 then
        [Op.setStrokeColor a.major_line_color, Op.setLineWidth a.major_line_thickness]
      else
        [Op.setStrokeColor a.minor_line_color, Op.setLineWidth a.minor_line_thickness]) ++
      [Op.line L.margin_left (L.margin_bottom + (j : ℚ) * L.grid_size)
        L.right_stop (L.margin_bottom + (j : ℚ) * L.grid_size)]) ∧
    (gridVerticalOps a L).count (Op.setStrokeColor a.major_line_color)
      = L.num_vertical_spaces.toNat / a.major_line_interval.toNat + 1 ∧
    (gridHorizontalOps a L).count (Op.setStrokeColor a.major_line_color)
      = L.num_horizontal_spaces.toNat / a.major_line_interval.toNat + 1 := by
  obtain ⟨P, hpre, hLP⟩ := computeLayout_ok a L h
  obtain ⟨-, hnv', hnh', hnvl', hnhl'⟩ := applyCentering_counts a P
  obtain ⟨-, -, hnv, hnh, hnvl, hnhl, -, -, -, -, -, -⟩ := computeLayoutPre_ok a P hpre
  have hvnn : 0 ≤ P.num_vertical_spaces := by
    rw [hnv]
    exact (floored_spaces_bounds _ a.grid_size _ (by linarith) hg hi).1
  have hhnn : 0 ≤ P.num_horizontal_spaces := by
    rw [hnh]
    exact (floored_spaces_bounds _ a.grid_size _ (by linarith) hg hi).1
  have hLnv : L.num_vertical_spaces = P.num_vertical_spaces := by rw [hLP]; exact hnv'
  have hLnh : L.num_horizontal_spaces = P.num_horizontal_spaces := by rw [hLP]; exact hnh'
  have hLnvl : L.num_vertical_lines = P.num_vertical_spaces + 1 := by
    rw [hLP, hnvl']
    exact hnvl
  have hLnhl : L.num_horizontal_lines = P.num_horizontal_spaces + 1 := by
    rw [hLP, hnhl']
    exact hnhl
  have hlinesv : L.num_vertical_lines.toNat = L.num_vertical_spaces.toNat + 1 := by
    omega
  have hlinesh : L.num_horizontal_lines.toNat = L.num_horizontal_spaces.toNat + 1 := by
    omega
  have ht : 0 < a.major_line_interval.toNat := by omega
  refine ⟨?_, ?_, ?_, ?_⟩
  · unfold gridVerticalOps
    rw [drawLines_eq]
    congr 1
    funext j
    simp
  · unfold gridHorizontalOps
    rw [drawLines_eq]
    congr 1
    funext j
    simp
  · unfold gridVerticalOps
    rw [drawLines_count _ _ _ _ _ _ _ _ _ _ hc]
    have hfun : (fun j => Int.fmod ((0 + j : ℕ) : ℤ) a.major_line_interval == 0)
        = (fun j : ℕ => Int.fmod ((j : ℕ) : ℤ) a.major_line_interval == 0) := by
      funext j
      rw [Nat.zero_add]
    rw [hfun, countP_fmod_range a.major_line_interval hi, hlinesv]
    have harith : L.num_vertical_spaces.toNat + 1 + a.major_line_interval.toNat - 1
        = L.num_vertical_spaces.toNat + a.major_line_interval.toNat := by omega
    rw [harith, Nat.add_div_right _ ht]
  · unfold gridHorizontalOps
    rw [drawLines_count _ _ _ _ _ _ _ _ _ _ hc]
    have hfun : (fun j => Int.fmod ((0 + j : ℕ) : ℤ) a.major_line_interval == 0)
        = (fun j : ℕ => Int.fmod ((j : ℕ) : ℤ) a.major_line_interval == 0) := by
      funext j
      rw [Nat.zero_add]
    rw [hfun, countP_fmod_range a.major_line_interval hi, hlinesh]
    have harith : L.num_horizontal_spaces.toNat + 1 + a.major_line_interval.toNat - 1
        = L.num_horizontal_spaces.toNat + a.major_line_interval.toNat := by omega
    rw [harith, Nat.add_div_right _ ht]

/-- C6, witness: the amended statement at `argsTiny` (one line per axis,
drawn major, count 0/5 + 1 = 1). -/
theorem c6_witness :
    gridVerticalOps argsTiny layoutTiny
      = (List.range layoutTiny.num_vertical_lines.toNat).flatMap (fun j =>
      (if Int.fmod ((j : ℕ) : ℤ) argsTiny.major_line_interval = 0 then
        [Op.setStrokeColor argsTiny.major_line_color,
         Op.setLineWidth argsTiny.major_line_thickness]
      else
        [Op.setStrokeColor argsTiny.minor_line_color,
         Op.setLineWidth argsTiny.minor_line_thickness]) ++
      [Op.line (layoutTiny.margin_left + (j : ℚ) * layoutTiny.grid_size)
        layoutTiny.margin_bottom
        (layoutTiny.margin_left + (j : ℚ) * layoutTiny.grid_size)
        layoutTiny.top_stop]) ∧
    gridHorizontalOps argsTiny layoutTiny
      = (List.range layoutTiny.num_horizontal_lines.toNat).flatMap (fun j =>
      (if Int.fmod ((j : ℕ) : ℤ) argsTiny.major_line_interval = 0 then
        [Op.setStrokeColor argsTiny.major_line_color,
         Op.setLineWidth argsTiny.major_line_thickness]
      else
        [Op.setStrokeColor argsTiny.minor_line_color,
         Op.setLineWidth argsTiny.minor_line_thickness]) ++
      [Op.line layoutTiny.margin_left
        (layoutTiny.margin_bottom + (j : ℚ) * layoutTiny.grid_size)
        layoutTiny.right_stop
        (layoutTiny.margin_bottom + (j : ℚ) * layoutTiny.grid_size)]) ∧
    (gridVerticalOps argsTiny layoutTiny).count
      (Op.setStrokeColor argsTiny.major_line_color)
      = layoutTiny.num_vertical_spaces.toNat / argsTiny.major_line_interval.toNat + 1 ∧
    (gridHorizontalOps argsTiny layoutTiny).count
      (Op.setStrokeColor argsTiny.major_line_color)
      = layoutTiny.num_horizontal_spaces.toNat / argsTiny.major_line_interval.toNat + 1 :=
  c6_grid_line_styles argsTiny layoutTiny computeLayout_tiny
    (by norm_num [argsTiny]) (by norm_num [argsTiny]) (by norm_num [argsTiny])
    (by norm_num [argsTiny]) (by norm_num [argsTiny])

end Paper
